import Mathlib

/-!
# Verification of the virtual1403 print server against its specification

Shallow embedding of the virtual1403 repository (vprinter renderer,
server configuration validation, render-profile selection) together with
spec-modelled components (quota tracker, render dispatcher worker pool)
for the parts of the pipeline whose source is not in the sample, and
proofs of the specification's claims about them.
-/

namespace Virtual1403

/-! ## vprinter: the IBM 1403 renderer (vprinter/1403.go)

We model a Go string as a `List Char` and the PDF drawing surface as the
list of pages produced so far, each page being the list of text lines
drawn on it (in drawing order).  The head of `pages` is the page
currently being written (Go's `pdf.AddPage` pushes a fresh page that
subsequent `CellFormat` calls draw onto). -/

/-- Constant `maxLinesPerPage = 66` in vprinter/1403.go. -/
def maxLinesPerPage : Nat := 66

/-- Constant `maxLineCharacters = 132` in vprinter/1403.go. -/
def maxLineCharacters : Nat := 132

/-- State of a `virtual1403` job: the current line counter `curLine` and
the pages drawn so far (head = current page, each page = drawn lines in
order). -/
structure V1403 where
  curLine : Nat
  pages : List (List (List Char))
  deriving Repr, DecidableEq

/-- Method `NewPage`: `pdf.AddPage()` starts a fresh page, and the form-control
simulation sets `job.curLine = 5` (skipping the first 5 printable
lines). -/
def newPage (j : V1403) : V1403 :=
  { curLine := 5, pages := [] :: j.pages }

/-- The text actually handed to `pdf.CellFormat` by `AddLine`: the input
truncated to `maxLineCharacters` when over-length (`s = s[0:maxLineCharacters]`),
then upper-cased (`strings.ToUpper`; the 1403 only had capital letters). -/
def lineText (s : List Char) : List Char :=
  (if s.length > maxLineCharacters then s.take maxLineCharacters else s).map
    Char.toUpper

/-- Draw a text line onto the current page. -/
def drawOnCurrentPage (j : V1403) (t : List Char) : V1403 :=
  { j with pages :=
      match j.pages with
      | [] => [[t]]
      | p :: rest => (p ++ [t]) :: rest }

/-- Method `AddLine(s)`: start a new page first if `curLine >= maxLinesPerPage`,
truncate and upper-case the text, draw it at the current line, and
advance `curLine`. -/
def addLine (j : V1403) (s : List Char) : V1403 :=
  let j := if j.curLine ≥ maxLinesPerPage then newPage j else j
  let j := drawOnCurrentPage j (lineText s)
  { j with curLine := j.curLine + 1 }

/-- Constructor `New1403`: construct the job and call `NewPage` once, so the state
starts with one (empty) current page and `curLine = 5`. -/
def new1403 : V1403 :=
  newPage { curLine := 0, pages := [] }

/-- The operations a client of the `Job` interface may perform between
construction and `EndJob`. -/
inductive PrinterOp where
  | add (s : List Char)
  | page
  deriving Repr

/-- One client call on the renderer. -/
def printerStep (j : V1403) : PrinterOp → V1403
  | .add s => addLine j s
  | .page => newPage j

/-- Run a sequence of `AddLine`/`NewPage` calls starting from `New1403`. -/
def runPrinter (ops : List PrinterOp) : V1403 :=
  ops.foldl printerStep new1403

/-- Inductive invariant tying `curLine` to the shape of the page stack:
there is always a current page, `curLine` is 5 plus the number of lines
drawn on it, and no page ever holds more than 61 job lines. -/
def PrinterInv (j : V1403) : Prop :=
  ∃ p rest, j.pages = p :: rest ∧ j.curLine = 5 + p.length ∧
    p.length ≤ 61 ∧ ∀ q ∈ rest, q.length ≤ 61

theorem printerInv_new1403 : PrinterInv new1403 :=
  ⟨[], [], rfl, rfl, by simp, by simp⟩

theorem printerInv_newPage {j : V1403} (h : PrinterInv j) :
    PrinterInv (newPage j) := by
  obtain ⟨p, rest, hpages, hcur, hlen, hrest⟩ := h
  refine ⟨[], j.pages, rfl, rfl, by simp, ?_⟩
  intro q hq
  rw [hpages] at hq
  rcases List.mem_cons.mp hq with h | h
  · exact h ▸ hlen
  · exact hrest q h

theorem printerInv_addLine {j : V1403} (h : PrinterInv j) (s : List Char) :
    PrinterInv (addLine j s) := by
  obtain ⟨p, rest, hpages, hcur, hlen, hrest⟩ := h
  by_cases hc : j.curLine ≥ maxLinesPerPage
  · -- the page is full: a fresh page is started first
    have heq : addLine j s = ⟨6, [lineText s] :: p :: rest⟩ := by
      unfold addLine drawOnCurrentPage newPage
      rw [if_pos hc, hpages]
      rfl
    rw [heq]
    refine ⟨[lineText s], p :: rest, rfl, rfl, by simp, ?_⟩
    intro q hq
    rcases List.mem_cons.mp hq with h | h
    · exact h ▸ hlen
    · exact hrest q h
  · -- room remains on the current page
    have heq : addLine j s = ⟨j.curLine + 1, (p ++ [lineText s]) :: rest⟩ := by
      unfold addLine drawOnCurrentPage
      rw [if_neg hc]
      simp only [hpages]
    rw [heq]
    have hp60 : p.length ≤ 60 := by
      unfold maxLinesPerPage at hc; omega
    exact ⟨p ++ [lineText s], rest, rfl, by simp [hcur]; omega,
      by simp; omega, hrest⟩

theorem printerInv_step {j : V1403} (h : PrinterInv j) (op : PrinterOp) :
    PrinterInv (printerStep j op) := by
  cases op with
  | add s => exact printerInv_addLine h s
  | page => exact printerInv_newPage h

theorem printerInv_run (ops : List PrinterOp) : PrinterInv (runPrinter ops) := by
  suffices h : ∀ (j : V1403), PrinterInv j →
      PrinterInv (ops.foldl printerStep j) from h new1403 printerInv_new1403
  induction ops with
  | nil => intro j hj; exact hj
  | cons op rest ih =>
      intro j hj
      exact ih _ (printerInv_step hj op)

/-- C2: `AddLine` never rejects a line; the text it draws is the
upper-case fold of the input truncated to the fixed 132-character
printable width: a line of at most 132 characters is drawn in full
(upper-cased), an over-length line is cut to exactly 132 characters. -/
theorem addLine_draws_uppercased_truncated (j : V1403) (s : List Char) :
    (∃ p rest, (addLine j s).pages = (p ++ [lineText s]) :: rest) ∧
    lineText s = (s.map Char.toUpper).take maxLineCharacters ∧
    (s.length ≤ maxLineCharacters → lineText s = s.map Char.toUpper) ∧
    (s.length > maxLineCharacters →
      (lineText s).length = maxLineCharacters) := by
  refine ⟨?_, ?_, ?_, ?_⟩
  · unfold addLine drawOnCurrentPage
    cases hj : (if j.curLine ≥ maxLinesPerPage then newPage j else j).pages with
    | nil => exact ⟨[], [], by simp [hj]⟩
    | cons p rest => exact ⟨p, rest, by simp [hj]⟩
  · unfold lineText
    by_cases hl : s.length > maxLineCharacters
    · rw [if_pos hl, List.map_take]
    · rw [if_neg hl, List.take_of_length_le]
      simpa using Nat.le_of_not_lt hl
  · intro hle
    unfold lineText
    rw [if_neg (by omega)]
  · intro hgt
    unfold lineText
    rw [if_pos hgt]
    simp [Nat.min_eq_left (Nat.le_of_lt hgt)]

theorem addLine_draws_uppercased_truncated_witness :
    (∃ p rest,
      (addLine new1403 (List.replicate 200 'a')).pages =
        (p ++ [lineText (List.replicate 200 'a')]) :: rest) ∧
    lineText (List.replicate 200 'a') =
      ((List.replicate 200 'a').map Char.toUpper).take maxLineCharacters ∧
    ((List.replicate 200 'a').length ≤ maxLineCharacters →
      lineText (List.replicate 200 'a') =
        (List.replicate 200 'a').map Char.toUpper) ∧
    ((List.replicate 200 'a').length > maxLineCharacters →
      (lineText (List.replicate 200 'a')).length = maxLineCharacters) :=
  addLine_draws_uppercased_truncated new1403 (List.replicate 200 'a')

/-- C8: starting from `New1403`, after any sequence of `AddLine` and
`NewPage` calls the current-line counter stays within `5 ≤ curLine ≤ 66`,
`NewPage` always resets it to 5, and no page ever carries more than 61
job text lines. -/
theorem curLine_invariant (ops : List PrinterOp) :
    5 ≤ (runPrinter ops).curLine ∧
    (runPrinter ops).curLine ≤ maxLinesPerPage ∧
    (∀ j : V1403, (newPage j).curLine = 5) ∧
    ∀ q ∈ (runPrinter ops).pages, q.length ≤ 61 := by
  obtain ⟨p, rest, hpages, hcur, hlen, hrest⟩ := printerInv_run ops
  refine ⟨by omega, by unfold maxLinesPerPage; omega, fun _ => rfl, ?_⟩
  intro q hq
  rw [hpages] at hq
  rcases List.mem_cons.mp hq with h | h
  · exact h ▸ hlen
  · exact hrest q h

theorem curLine_invariant_witness :
    5 ≤ (runPrinter [.add ['h', 'i'], .page, .add []]).curLine ∧
    (runPrinter [.add ['h', 'i'], .page, .add []]).curLine ≤
      maxLinesPerPage ∧
    (∀ j : V1403, (newPage j).curLine = 5) ∧
    ∀ q ∈ (runPrinter [.add ['h', 'i'], .page, .add []]).pages,
      q.length ≤ 61 :=
  curLine_invariant [.add ['h', 'i'], .page, .add []]

/-! ## Quota Tracker (spec-modelled)

The Quota Tracker's source is not among the sample's files; it is
modelled from the spec (§4.4, §4.6, §7). -/

/-- Per-account quota counters: `window_start`, `job_count`, `page_count`
(§4.4).  Time is an abstract integer timestamp measured in the same unit
as `QuotaPeriod`. -/
structure QuotaState where
  windowStart : Int
  jobCount : Nat
  pageCount : Nat
  deriving Repr, DecidableEq

/-- Quota configuration: `QuotaJobs`, `QuotaPages`, `QuotaPeriod`. -/
structure QuotaConfig where
  quotaJobs : Nat
  quotaPages : Nat
  quotaPeriod : Int
  deriving Repr, DecidableEq

/-- Outcome of a `Reserve` call. -/
inductive ReserveResult where
  | granted
  | quotaExceeded
  deriving Repr, DecidableEq

/-- Modelled from the spec: `Reserve(account, estimated=1 job)` (§4.4) —
the Quota Tracker itself is not among the source files.  If `unlimited`,
grant immediately.  Otherwise, if `now - window_start > QuotaPeriod`,
reset counters and set `window_start = now`; if `job_count >= QuotaJobs`,
fail with `QuotaExceeded` without mutating further; otherwise increment
`job_count` and grant. -/
def reserve (cfg : QuotaConfig) (unlimited : Bool) (now : Int)
    (s : QuotaState) : QuotaState × ReserveResult :=
  if unlimited then (s, .granted)
  else
    let s := if now - s.windowStart > cfg.quotaPeriod then
      ⟨now, 0, 0⟩ else s
    if s.jobCount ≥ cfg.quotaJobs then (s, .quotaExceeded)
    else ({ s with jobCount := s.jobCount + 1 }, .granted)

/-- Modelled from the spec: `Commit(handle, actual_pages)` (§4.4) adds
the actual page count after rendering; it never rejects. -/
def commit (pages : Nat) (s : QuotaState) : QuotaState :=
  { s with pageCount := s.pageCount + pages }

/-- Modelled from the spec: the render-failure rollback (§4.6, §7) —
"quota reservation is rolled back (job_count decremented)". -/
def rollback (s : QuotaState) : QuotaState :=
  { s with jobCount := s.jobCount - 1 }

/-- The operations that touch a non-unlimited account's quota counters. -/
inductive QuotaOp where
  | reserveAt (now : Int)
  | commitPages (pages : Nat)
  | renderFail
  deriving Repr

/-- One quota-tracker operation on a non-unlimited account's state. -/
def quotaStep (cfg : QuotaConfig) (s : QuotaState) : QuotaOp → QuotaState
  | .reserveAt now => (reserve cfg false now s).1
  | .commitPages p => commit p s
  | .renderFail => rollback s

/-- Run a sequence of quota operations from a fresh account state
(counters zero, window starting at `t0`). -/
def quotaRun (cfg : QuotaConfig) (t0 : Int) (ops : List QuotaOp) : QuotaState :=
  ops.foldl (quotaStep cfg) ⟨t0, 0, 0⟩

theorem jobCount_quotaStep_le (cfg : QuotaConfig) (s : QuotaState)
    (op : QuotaOp) (h : s.jobCount ≤ cfg.quotaJobs) :
    (quotaStep cfg s op).jobCount ≤ cfg.quotaJobs := by
  cases op with
  | reserveAt now =>
      unfold quotaStep reserve
      simp only [Bool.false_eq_true, if_false]
      split <;> split <;> simp_all <;> omega
  | commitPages p => exact h
  | renderFail => exact Nat.le_trans (Nat.sub_le _ _) h

theorem jobCount_quotaRun_le (cfg : QuotaConfig) (t0 : Int)
    (ops : List QuotaOp) : (quotaRun cfg t0 ops).jobCount ≤ cfg.quotaJobs := by
  suffices h : ∀ s : QuotaState, s.jobCount ≤ cfg.quotaJobs →
      (ops.foldl (quotaStep cfg) s).jobCount ≤ cfg.quotaJobs from
    h ⟨t0, 0, 0⟩ (Nat.zero_le _)
  induction ops with
  | nil => intro s hs; exact hs
  | cons op rest ih =>
      intro s hs
      exact ih _ (jobCount_quotaStep_le cfg s op hs)

/-- Errors a print job can fail with after being accepted by the
protocol layer (§7 taxonomy, restricted to what the dispatcher path
uses). -/
inductive JobError where
  | renderError
  | quotaExceeded
  deriving Repr, DecidableEq

/-- A finished document, abstractly: the bytes the renderer produced. -/
def Document := List Nat

/-- Modelled from the spec: the worker path taken when the rendering
collaborator fails (§4.6) — the dispatcher source is not among the
sample's files.  "The job fails with `RenderError`, quota reservation is
rolled back (job_count decremented) since no usage occurred, and no
document is delivered." -/
def renderFailure (s : QuotaState) : QuotaState × Except JobError Document :=
  (rollback s, .error .renderError)

theorem reserve_not_expired (cfg : QuotaConfig) (now : Int) (s : QuotaState)
    (h : now - s.windowStart ≤ cfg.quotaPeriod) :
    reserve cfg false now s =
      if s.jobCount ≥ cfg.quotaJobs then (s, .quotaExceeded)
      else ({ s with jobCount := s.jobCount + 1 }, .granted) := by
  have hcond : ¬ (now - s.windowStart > cfg.quotaPeriod) := not_lt.mpr h
  unfold reserve
  simp only [Bool.false_eq_true, if_false]
  rw [if_neg hcond]

/-- C6: for a non-unlimited account whose window has not expired and
whose `job_count` has reached `QuotaJobs`, `Reserve` fails with
`QuotaExceeded` and leaves `window_start`, `job_count` and `page_count`
unchanged. -/
theorem reserve_full_window_rejects (cfg : QuotaConfig) (now : Int)
    (s : QuotaState) (h1 : now - s.windowStart ≤ cfg.quotaPeriod)
    (h2 : s.jobCount ≥ cfg.quotaJobs) :
    reserve cfg false now s = (s, .quotaExceeded) := by
  rw [reserve_not_expired cfg now s h1, if_pos h2]

theorem reserve_full_window_rejects_witness :
    reserve ⟨2, 10, 1⟩ false 1 ⟨0, 2, 5⟩ = (⟨0, 2, 5⟩, .quotaExceeded) :=
  reserve_full_window_rejects ⟨2, 10, 1⟩ 1 ⟨0, 2, 5⟩ (by decide) (by decide)

/-- C1: over any sequence of quota operations on a fresh non-unlimited
account the in-window job count never exceeds `QuotaJobs`, and a
`Reserve` that finds the window start older than `QuotaPeriod` resets
the window start to `now` and the counters (so at most the one newly
reserved job is counted and no pages are). -/
theorem quota_window_invariant (cfg : QuotaConfig) (t0 : Int)
    (ops : List QuotaOp) (s : QuotaState) (now : Int)
    (hexp : now - s.windowStart > cfg.quotaPeriod) :
    (quotaRun cfg t0 ops).jobCount ≤ cfg.quotaJobs ∧
    (reserve cfg false now s).1.windowStart = now ∧
    (reserve cfg false now s).1.jobCount ≤ 1 ∧
    (reserve cfg false now s).1.pageCount = 0 := by
  refine ⟨jobCount_quotaRun_le cfg t0 ops, ?_⟩
  unfold reserve
  simp only [Bool.false_eq_true, if_false]
  rw [if_pos hexp]
  by_cases hq : (0 : Nat) ≥ cfg.quotaJobs
  · rw [if_pos hq]; exact ⟨rfl, Nat.zero_le 1, rfl⟩
  · rw [if_neg hq]; exact ⟨rfl, Nat.le_refl 1, rfl⟩

theorem quota_window_invariant_witness :
    (quotaRun ⟨2, 10, 1⟩ 0
      [.reserveAt 0, .reserveAt 0, .reserveAt 0]).jobCount ≤ 2 ∧
    (reserve ⟨2, 10, 1⟩ false 5 ⟨0, 5, 7⟩).1.windowStart = 5 ∧
    (reserve ⟨2, 10, 1⟩ false 5 ⟨0, 5, 7⟩).1.jobCount ≤ 1 ∧
    (reserve ⟨2, 10, 1⟩ false 5 ⟨0, 5, 7⟩).1.pageCount = 0 :=
  quota_window_invariant ⟨2, 10, 1⟩ 0
    [.reserveAt 0, .reserveAt 0, .reserveAt 0] ⟨0, 5, 7⟩ 5 (by decide)

/-- C5 counterexample: when `Reserve` finds the trailing window expired
it resets the counters before granting, so a reservation followed by the
render-failure rollback does not restore `job_count` to its
pre-reservation value (here 3 becomes 0). -/
theorem reserve_renderFail_not_roundtrip :
    (reserve ⟨5, 10, 1⟩ false 2 ⟨0, 3, 7⟩).2 = ReserveResult.granted ∧
    (renderFailure (reserve ⟨5, 10, 1⟩ false 2 ⟨0, 3, 7⟩).1).1.jobCount ≠
      (⟨0, 3, 7⟩ : QuotaState).jobCount := by
  decide

/-- C5 (amended): for a non-unlimited account whose quota window has not
expired, a granted reservation followed by a rendering failure restores
the quota state exactly (net no-op), the job fails with `RenderError`,
and no document is produced. -/
theorem reserve_renderFail_roundtrip (cfg : QuotaConfig) (now : Int)
    (s : QuotaState) (h1 : now - s.windowStart ≤ cfg.quotaPeriod)
    (h2 : (reserve cfg false now s).2 = .granted) :
    (renderFailure (reserve cfg false now s).1).1 = s ∧
    (renderFailure (reserve cfg false now s).1).2 =
      .error JobError.renderError := by
  rw [reserve_not_expired cfg now s h1] at h2 ⊢
  by_cases hq : s.jobCount ≥ cfg.quotaJobs
  · rw [if_pos hq] at h2; exact absurd h2 (by simp)
  · rw [if_neg hq]
    exact ⟨by simp [renderFailure, rollback], rfl⟩

theorem reserve_renderFail_roundtrip_witness :
    (renderFailure (reserve ⟨5, 10, 1⟩ false 1 ⟨0, 3, 7⟩).1).1 =
      (⟨0, 3, 7⟩ : QuotaState) ∧
    (renderFailure (reserve ⟨5, 10, 1⟩ false 1 ⟨0, 3, 7⟩).1).2 =
      .error JobError.renderError :=
  reserve_renderFail_roundtrip ⟨5, 10, 1⟩ 1 ⟨0, 3, 7⟩ (by decide) (by decide)

/-! ## Server configuration validation (`readConfig`)

We embed the validation part of `readConfig` (everything after the YAML
decode; file access and YAML parsing are I/O).  The two external
predicates the validation consults — `mailer.ValidateAddress` and
whether `regexp.Compile` succeeds on a pattern — come from collaborator
packages outside the sample, so the embedding is parameterized by
them. -/

/-- The fields of `ServerConfig.MailConfig` that `readConfig` checks. -/
structure MailConfig where
  FromAddress : String
  Server : String
  Port : Int
  deriving Repr, DecidableEq

/-- Structure `ServerConfig` (the fields `readConfig` validates; Go `int` is
modelled as `Int`, Go `string` as `String`). -/
structure ServerConfig where
  DatabaseFile : String
  ListenPort : Int
  TLSListenPort : Int
  TLSDomain : String
  BaseURL : String
  MailConfig : MailConfig
  InactiveMonthsCleanup : Int
  UnverifiedMonthsCleanup : Int
  PDFDaysCleanup : Int
  NuisanceJobNames : List String
  ServerAdmin : String
  deriving Repr, DecidableEq

/-- One tag per `fmt.Errorf` site in `readConfig`'s validation. -/
inductive ConfigError where
  | databaseFileRequired
  | portInvalid (p : Int)
  | tlsPortInvalid (p : Int)
  | tlsDomainRequired
  | baseURLRequired
  | fromAddressInvalid (a : String)
  | serverAdminInvalid (a : String)
  | mailServerRequired
  | mailPortRequired
  | mailPortInvalid (p : Int)
  | inactiveNeedsUnverified
  | unverifiedNeedsInactive
  | pdfDaysRequired
  | nuisanceRegexError (pattern : String)
  deriving Repr, DecidableEq

/-- The `for i := range c.NuisanceJobNames` loop: each pattern that
fails to compile appends an error (and `continue`s); each pattern that
compiles is appended to the compiled set (represented by its source
pattern). -/
def compileNuisance (compiles : String → Bool) (names : List String) :
    List ConfigError × List String :=
  names.foldl
    (fun acc p =>
      if compiles p then (acc.1, acc.2 ++ [p])
      else (acc.1 ++ [ConfigError.nuisanceRegexError p], acc.2))
    ([], [])

/-- The error list accumulated by `readConfig` after a successful YAML
decode, in source order.  Note that the TLS-listen-port range check
tests `c.ListenPort`, exactly as the source does. -/
def readConfigErrors (validateAddress compiles : String → Bool)
    (c : ServerConfig) : List ConfigError :=
  (if c.DatabaseFile = "" then [ConfigError.databaseFileRequired] else []) ++
  (if c.ListenPort < 1 ∨ c.ListenPort > 65535 then
    [ConfigError.portInvalid c.ListenPort] else []) ++
  (if c.TLSListenPort ≥ 1 ∧ c.ListenPort > 65535 then
    [ConfigError.tlsPortInvalid c.ListenPort] else []) ++
  (if c.TLSListenPort > 0 ∧ c.TLSDomain = "" then
    [ConfigError.tlsDomainRequired] else []) ++
  (if c.BaseURL = "" then [ConfigError.baseURLRequired] else []) ++
  (if ¬ validateAddress c.MailConfig.FromAddress then
    [ConfigError.fromAddressInvalid c.MailConfig.FromAddress] else []) ++
  (if ¬ validateAddress c.ServerAdmin then
    [ConfigError.serverAdminInvalid c.ServerAdmin] else []) ++
  (if c.MailConfig.Server = "" then [ConfigError.mailServerRequired] else []) ++
  (if c.MailConfig.Port = 0 then [ConfigError.mailPortRequired] else []) ++
  (if c.MailConfig.Port < 1 ∨ c.MailConfig.Port > 65535 then
    [ConfigError.mailPortInvalid c.MailConfig.Port] else []) ++
  (if c.InactiveMonthsCleanup > 0 ∧ c.UnverifiedMonthsCleanup ≤ 0 then
    [ConfigError.inactiveNeedsUnverified] else []) ++
  (if c.UnverifiedMonthsCleanup > 0 ∧ c.InactiveMonthsCleanup ≤ 0 then
    [ConfigError.unverifiedNeedsInactive] else []) ++
  (if c.PDFDaysCleanup < 1 then [ConfigError.pdfDaysRequired] else []) ++
  (compileNuisance compiles c.NuisanceJobNames).1

/-- The compiled nuisance pattern set `readConfig` leaves in
`c.nuisanceJobRegex`, represented by the source pattern of each
successfully compiled entry. -/
def readConfigNuisanceRegex (compiles : String → Bool)
    (c : ServerConfig) : List String :=
  (compileNuisance compiles c.NuisanceJobNames).2

theorem compileNuisance_go (compiles : String → Bool) (names : List String)
    (acc : List ConfigError × List String) :
    names.foldl
      (fun acc p =>
        if compiles p then (acc.1, acc.2 ++ [p])
        else (acc.1 ++ [ConfigError.nuisanceRegexError p], acc.2))
      acc =
    (acc.1 ++ (names.filter (fun p => ! compiles p)).map
        ConfigError.nuisanceRegexError,
     acc.2 ++ names.filter compiles) := by
  induction names generalizing acc with
  | nil => simp
  | cons p rest ih =>
      by_cases hp : compiles p
      · simp [List.foldl_cons, hp, ih, List.filter_cons]
      · simp [List.foldl_cons, hp, ih, List.filter_cons]

theorem compileNuisance_fst (compiles : String → Bool)
    (names : List String) :
    (compileNuisance compiles names).1 =
      (names.filter (fun p => ! compiles p)).map
        ConfigError.nuisanceRegexError := by
  unfold compileNuisance
  rw [compileNuisance_go]
  simp

theorem compileNuisance_snd (compiles : String → Bool)
    (names : List String) :
    (compileNuisance compiles names).2 = names.filter compiles := by
  unfold compileNuisance
  rw [compileNuisance_go]
  simp

theorem mem_ite_singleton {α : Type} (x a : α) (c : Prop) [Decidable c] :
    (x ∈ if c then [a] else ([] : List α)) ↔ c ∧ x = a := by
  split <;> simp_all

/-- An otherwise-valid configuration with `inactive_months_cleanup = -1`
and `unverified_months_cleanup = 0`: the thresholds are neither both
zero nor both positive. -/
def cexConfigC3 : ServerConfig :=
  { DatabaseFile := "virtual1403.db"
    ListenPort := 1403
    TLSListenPort := 0
    TLSDomain := ""
    BaseURL := "http://localhost"
    MailConfig := { FromAddress := "from@example.com",
                    Server := "smtp.example.com", Port := 25 }
    InactiveMonthsCleanup := -1
    UnverifiedMonthsCleanup := 0
    PDFDaysCleanup := 30
    NuisanceJobNames := []
    ServerAdmin := "admin@example.com" }

/-- C3 counterexample: with thresholds `(-1, 0)` — not both zero, not
both positive — `readConfig` returns no error at all, refuting the claim
that every such configuration is rejected. -/
theorem cleanup_pairing_counterexample :
    ¬ ((cexConfigC3.InactiveMonthsCleanup = 0 ∧
        cexConfigC3.UnverifiedMonthsCleanup = 0) ∨
       (cexConfigC3.InactiveMonthsCleanup > 0 ∧
        cexConfigC3.UnverifiedMonthsCleanup > 0)) ∧
    readConfigErrors (fun _ => true) (fun _ => true) cexConfigC3 = [] := by
  constructor
  · decide
  · rfl

/-- C3 (amended): `readConfig` produces a threshold-pairing error
exactly when one cleanup threshold is positive and the other is not
(non-positive values, zero or negative, both count as unconfigured);
when both are positive or both non-positive no pairing error is
produced. -/
theorem cleanup_pairing_validation (v r : String → Bool)
    (c : ServerConfig) :
    (ConfigError.inactiveNeedsUnverified ∈ readConfigErrors v r c ∨
     ConfigError.unverifiedNeedsInactive ∈ readConfigErrors v r c) ↔
    ((c.InactiveMonthsCleanup > 0 ∧ c.UnverifiedMonthsCleanup ≤ 0) ∨
     (c.UnverifiedMonthsCleanup > 0 ∧ c.InactiveMonthsCleanup ≤ 0)) := by
  simp only [readConfigErrors, List.mem_append, mem_ite_singleton,
    compileNuisance_fst, List.mem_map, List.mem_filter]
  simp

theorem cleanup_pairing_validation_witness :
    (ConfigError.inactiveNeedsUnverified ∈
        readConfigErrors (fun _ => true) (fun _ => true)
          { cexConfigC3 with InactiveMonthsCleanup := 3 } ∨
     ConfigError.unverifiedNeedsInactive ∈
        readConfigErrors (fun _ => true) (fun _ => true)
          { cexConfigC3 with InactiveMonthsCleanup := 3 }) ↔
    (({ cexConfigC3 with
        InactiveMonthsCleanup := 3 } : ServerConfig).InactiveMonthsCleanup
          > 0 ∧
      ({ cexConfigC3 with
        InactiveMonthsCleanup := 3 } : ServerConfig).UnverifiedMonthsCleanup
          ≤ 0) ∨
    (({ cexConfigC3 with
        InactiveMonthsCleanup := 3 } : ServerConfig).UnverifiedMonthsCleanup
          > 0 ∧
      ({ cexConfigC3 with
        InactiveMonthsCleanup := 3 } : ServerConfig).InactiveMonthsCleanup
          ≤ 0) :=
  cleanup_pairing_validation (fun _ => true) (fun _ => true)
    { cexConfigC3 with InactiveMonthsCleanup := 3 }

/-- C4: any configuration containing a nuisance pattern that fails to
compile yields a non-empty error list, and the compiled nuisance set
consists of exactly the entries that do compile, in order. -/
theorem nuisance_patterns_validation (v r : String → Bool)
    (c : ServerConfig)
    (h : ∃ p ∈ c.NuisanceJobNames, ¬ r p) :
    readConfigErrors v r c ≠ [] ∧
    readConfigNuisanceRegex r c = c.NuisanceJobNames.filter r := by
  constructor
  · obtain ⟨p, hp, hnc⟩ := h
    have hmem : ConfigError.nuisanceRegexError p ∈
        (compileNuisance r c.NuisanceJobNames).1 := by
      rw [compileNuisance_fst]
      exact List.mem_map_of_mem _
        (List.mem_filter.mpr ⟨hp, by simp [hnc]⟩)
    intro heq
    rw [readConfigErrors] at heq
    simp only [List.append_eq_nil] at heq
    rw [heq.2] at hmem
    exact List.not_mem_nil _ hmem
  · rw [readConfigNuisanceRegex, compileNuisance_snd]

theorem nuisance_patterns_validation_witness :
    readConfigErrors (fun _ => true) (fun s => s != "bad[")
      { cexConfigC3 with NuisanceJobNames := ["^TESTPRINT$", "bad["] } ≠ [] ∧
    readConfigNuisanceRegex (fun s => s != "bad[")
        { cexConfigC3 with NuisanceJobNames := ["^TESTPRINT$", "bad["] } =
      (["^TESTPRINT$", "bad["].filter (fun s => s != "bad[")) :=
  nuisance_patterns_validation (fun _ => true) (fun s => s != "bad[")
    { cexConfigC3 with NuisanceJobNames := ["^TESTPRINT$", "bad["] }
    ⟨"bad[", by simp, by simp⟩

/-- C9: as long as `listen_port` itself is in range, no TLS-port range
error is ever produced — the TLS range check reads `c.ListenPort`, so an
out-of-range `tls_listen_port` passes validation — and the only check
keyed to `tls_listen_port` is the TLS-domain requirement. -/
theorem tls_port_not_range_checked (v r : String → Bool)
    (c : ServerConfig) (h1 : 1 ≤ c.ListenPort) (h2 : c.ListenPort ≤ 65535) :
    (∀ p : Int, ConfigError.tlsPortInvalid p ∉ readConfigErrors v r c) ∧
    (ConfigError.tlsDomainRequired ∈ readConfigErrors v r c ↔
      c.TLSListenPort > 0 ∧ c.TLSDomain = "") := by
  constructor
  · intro p
    simp only [readConfigErrors, List.mem_append, mem_ite_singleton,
      compileNuisance_fst, List.mem_map, List.mem_filter]
    simp
    omega
  · simp only [readConfigErrors, List.mem_append, mem_ite_singleton,
      compileNuisance_fst, List.mem_map, List.mem_filter]
    simp

/-- An otherwise-valid configuration whose `tls_listen_port` is 70000,
far above the valid port range. -/
def witConfigC9 : ServerConfig :=
  { cexConfigC3 with
      TLSListenPort := 70000
      TLSDomain := "example.com"
      InactiveMonthsCleanup := 0 }

theorem tls_port_not_range_checked_witness :
    (∀ p : Int, ConfigError.tlsPortInvalid p ∉
      readConfigErrors (fun _ => true) (fun _ => true) witConfigC9) ∧
    (ConfigError.tlsDomainRequired ∈
        readConfigErrors (fun _ => true) (fun _ => true) witConfigC9 ↔
      witConfigC9.TLSListenPort > 0 ∧ witConfigC9.TLSDomain = "") :=
  tls_port_not_range_checked (fun _ => true) (fun _ => true) witConfigC9
    (by decide) (by decide)

/-! ## Render Dispatcher worker pool (spec-modelled)

The dispatcher's source is not among the sample's files; the bounded
worker pool is modelled from the spec (§4.6, §5, §9) as a transition
system: connections arrive with a job, a waiting job acquires a worker
slot only while fewer than `ConcurrentPrintJobs` renders are active
(otherwise it keeps waiting — there is no rejecting transition), and a
finished render releases its slot. -/

/-- Pool state: jobs waiting for a worker slot and renders currently
executing. -/
structure PoolState where
  waiting : Nat
  active : Nat
  deriving Repr, DecidableEq

/-- Modelled from the spec: the Render Dispatcher's transitions (§4.6,
§5, §9 "bounded channel of fixed capacity `ConcurrentPrintJobs`;
acquisition blocks the caller task, release happens on completion"). -/
inductive PoolStep (limit : Nat) : PoolState → PoolState → Prop where
  | arrive (s : PoolState) :
      PoolStep limit s ⟨s.waiting + 1, s.active⟩
  | acquire (s : PoolState) (hw : 1 ≤ s.waiting) (ha : s.active < limit) :
      PoolStep limit s ⟨s.waiting - 1, s.active + 1⟩
  | release (s : PoolState) (h : 1 ≤ s.active) :
      PoolStep limit s ⟨s.waiting, s.active - 1⟩

/-- States reachable from the idle pool. -/
inductive PoolReach (limit : Nat) : PoolState → Prop where
  | init : PoolReach limit ⟨0, 0⟩
  | step {s t : PoolState} :
      PoolReach limit s → PoolStep limit s t → PoolReach limit t

/-- C7: in every reachable pool state at most `ConcurrentPrintJobs`
renders are active, and the only transition that removes a waiting job
moves it into a free worker slot — a waiting connection blocks until a
slot frees and is never rejected. -/
theorem pool_bounds_active (limit : Nat) (s : PoolState)
    (h : PoolReach limit s) :
    s.active ≤ limit ∧
    ∀ t u : PoolState, PoolStep limit t u → u.waiting < t.waiting →
      u.active = t.active + 1 ∧ t.active < limit := by
  constructor
  · induction h with
    | init => exact Nat.zero_le _
    | step hr hs ih =>
        cases hs with
        | arrive => exact ih
        | acquire hw ha => exact ha
        | release h => exact Nat.le_trans (Nat.sub_le _ _) ih
  · intro t u hs hw
    cases hs with
    | arrive => simp at hw
    | acquire hw' ha => exact ⟨rfl, ha⟩
    | release h => simp at hw

theorem pool_bounds_active_witness :
    (⟨0, 1⟩ : PoolState).active ≤ 2 ∧
    ∀ t u : PoolState, PoolStep 2 t u → u.waiting < t.waiting →
      u.active = t.active + 1 ∧ t.active < 2 :=
  pool_bounds_active 2 ⟨0, 1⟩
    (PoolReach.step
      (PoolReach.step PoolReach.init (PoolStep.arrive ⟨0, 0⟩))
      (PoolStep.acquire ⟨1, 0⟩ (by decide) (by decide)))

/-! ## Render profile selection (`NewProfile`, vprinter/profile.go)

The second vprinter source file defines `NewProfile`, which maps an
account's profile name (folded to lower case) to a `New1403`
invocation.  That file's `New1403` takes font bytes, a font size, a
line-skip count, two boolean flags and a dark/light colour pair; we
record the invocation's arguments.  The embedded `.ttf` assets are
binary blobs, represented as atoms.  Go's `strings.ToLower` is modelled
as per-character lower-casing. -/

/-- RGB colour triple (`ColorRGB`). -/
structure ColorRGB where
  R : Nat
  G : Nat
  B : Nat
  deriving Repr, DecidableEq

/-- Source: `var DarkGreen = ColorRGB{99, 182, 99}`. -/
def DarkGreen : ColorRGB := ⟨99, 182, 99⟩

/-- Source: `var LightGreen = ColorRGB{219, 240, 219}`. -/
def LightGreen : ColorRGB := ⟨219, 240, 219⟩

/-- Source: `var DarkBlue = ColorRGB{65, 182, 255}`. -/
def DarkBlue : ColorRGB := ⟨65, 182, 255⟩

/-- Source: `var LightBlue = ColorRGB{214, 239, 255}`. -/
def LightBlue : ColorRGB := ⟨214, 239, 255⟩

/-- Font bytes handed to `New1403`: one of the two embedded assets
(`IBMPlexMono-Regular.ttf`, `IBM140310Pitch-Regular-MRW.ttf`) or a
caller-provided override. -/
inductive FontBytes where
  | embeddedDefault
  | embeddedWorn
  | provided (bytes : List Nat)
  deriving Repr, DecidableEq

/-- The arguments `NewProfile` passes to `New1403`, in order: font
bytes, font size, line skip, the two boolean flags, dark colour, light
colour. -/
structure New1403Args where
  font : FontBytes
  size : ℚ
  lineSkip : Nat
  flag1 : Bool
  flag2 : Bool
  darkColor : ColorRGB
  lightColor : ColorRGB
  deriving Repr, DecidableEq

/-- Go `strings.ToLower`, modelled per character. -/
def goToLower (s : String) : String := ⟨s.data.map Char.toLower⟩

/-- The profile names `NewProfile`'s switch recognizes. -/
def recognizedProfiles : List String :=
  ["default-green", "default-green-noskip", "default-blue",
   "default-blue-noskip", "default-plain", "default-plain-noskip",
   "retro-green", "retro-green-noskip", "retro-blue", "retro-blue-noskip",
   "retro-plain", "retro-plain-noskip", "modern-green",
   "modern-green-skip5", "modern-green-noskip", "modern-blue",
   "modern-blue-skip5", "modern-blue-noskip", "modern-plain",
   "modern-plain-skip5", "modern-plain-noskip", "lpi8-modern-green",
   "lpi8-modern-green-noskip", "lpi8-modern-blue",
   "lpi8-modern-blue-noskip", "lpi8-modern-plain",
   "lpi8-modern-plain-noskip"]

/-- Function `NewProfile(profile, fontOverride, sizeOverride)`: choose the font
(override if non-nil, else the embedded default), the size (override if
positive, else 12.0), then dispatch on the lower-cased profile name;
the default case is the same as `default-green`. -/
def NewProfile (profile : String) (fontOverride : Option (List Nat))
    (sizeOverride : ℚ) : New1403Args :=
  let tempFont : FontBytes :=
    match fontOverride with
    | some b => .provided b
    | none => .embeddedDefault
  let tempSize : ℚ := if sizeOverride > 0 then sizeOverride else 12
  match goToLower profile with
  | "default-green" =>
      ⟨tempFont, tempSize, 6, true, true, DarkGreen, LightGreen⟩
  | "default-green-noskip" =>
      ⟨tempFont, tempSize, 1, true, true, DarkGreen, LightGreen⟩
  | "default-blue" =>
      ⟨tempFont, tempSize, 6, true, true, DarkBlue, LightBlue⟩
  | "default-blue-noskip" =>
      ⟨tempFont, tempSize, 1, true, true, DarkBlue, LightBlue⟩
  | "default-plain" =>
      ⟨tempFont, tempSize, 6, true, false, ⟨0, 0, 0⟩, ⟨0, 0, 0⟩⟩
  | "default-plain-noskip" =>
      ⟨tempFont, tempSize, 1, true, false, ⟨0, 0, 0⟩, ⟨0, 0, 0⟩⟩
  | "retro-green" =>
      ⟨.embeddedWorn, 10, 6, true, true, DarkGreen, LightGreen⟩
  | "retro-green-noskip" =>
      ⟨.embeddedWorn, 10, 1, true, true, DarkGreen, LightGreen⟩
  | "retro-blue" =>
      ⟨.embeddedWorn, 10, 6, true, true, DarkBlue, LightBlue⟩
  | "retro-blue-noskip" =>
      ⟨.embeddedWorn, 10, 1, true, true, DarkBlue, LightBlue⟩
  | "retro-plain" =>
      ⟨.embeddedWorn, 10, 6, true, false, ⟨0, 0, 0⟩, ⟨0, 0, 0⟩⟩
  | "retro-plain-noskip" =>
      ⟨.embeddedWorn, 10, 1, true, false, ⟨0, 0, 0⟩, ⟨0, 0, 0⟩⟩
  | "modern-green" =>
      ⟨.embeddedDefault, 12, 6, false, true, DarkGreen, LightGreen⟩
  | "modern-green-skip5" =>
      ⟨.embeddedDefault, 12, 5, false, true, DarkGreen, LightGreen⟩
  | "modern-green-noskip" =>
      ⟨.embeddedDefault, 12, 1, false, true, DarkGreen, LightGreen⟩
  | "modern-blue" =>
      ⟨.embeddedDefault, 12, 6, false, true, DarkBlue, LightBlue⟩
  | "modern-blue-skip5" =>
      ⟨.embeddedDefault, 12, 5, false, true, DarkBlue, LightBlue⟩
  | "modern-blue-noskip" =>
      ⟨.embeddedDefault, 12, 1, false, true, DarkBlue, LightBlue⟩
  | "modern-plain" =>
      ⟨.embeddedDefault, 12, 6, false, false, ⟨0, 0, 0⟩, ⟨0, 0, 0⟩⟩
  | "modern-plain-skip5" =>
      ⟨.embeddedDefault, 12, 5, false, false, ⟨0, 0, 0⟩, ⟨0, 0, 0⟩⟩
  | "modern-plain-noskip" =>
      ⟨.embeddedDefault, 12, 1, false, false, ⟨0, 0, 0⟩, ⟨0, 0, 0⟩⟩
  | "lpi8-modern-green" =>
      ⟨.embeddedDefault, 9, 8, false, true, DarkGreen, LightGreen⟩
  | "lpi8-modern-green-noskip" =>
      ⟨.embeddedDefault, 9, 1, false, true, DarkGreen, LightGreen⟩
  | "lpi8-modern-blue" =>
      ⟨.embeddedDefault, 9, 8, false, true, DarkBlue, LightBlue⟩
  | "lpi8-modern-blue-noskip" =>
      ⟨.embeddedDefault, 9, 1, false, true, DarkBlue, LightBlue⟩
  | "lpi8-modern-plain" =>
      ⟨.embeddedDefault, 9, 8, false, false, ⟨0, 0, 0⟩, ⟨0, 0, 0⟩⟩
  | "lpi8-modern-plain-noskip" =>
      ⟨.embeddedDefault, 9, 1, false, false, ⟨0, 0, 0⟩, ⟨0, 0, 0⟩⟩
  | _ =>
      ⟨tempFont, tempSize, 6, true, true, DarkGreen, LightGreen⟩

/-- The `New1403` invocation `NewProfile` makes for `"default-green"`
(and for its default case): override font if supplied else the embedded
default, override size if positive else 12.0, line skip 6, green
colours. -/
def defaultGreenArgs (fo : Option (List Nat)) (so : ℚ) : New1403Args :=
  ⟨(match fo with
    | some b => FontBytes.provided b
    | none => FontBytes.embeddedDefault),
   (if so > 0 then so else 12), 6, true, true, DarkGreen, LightGreen⟩

/-- C10: a profile name whose lower-case fold is not a recognized
profile string selects exactly what `"default-green"` selects: the
override font if supplied (else the embedded default), the override
size if positive (else 12.0), line skip 6, and the green colour
pair. -/
theorem newProfile_unknown_is_default_green (name : String)
    (fo : Option (List Nat)) (so : ℚ)
    (h : goToLower name ∉ recognizedProfiles) :
    NewProfile name fo so = NewProfile "default-green" fo so ∧
    NewProfile name fo so = defaultGreenArgs fo so := by
  have hd : NewProfile name fo so = defaultGreenArgs fo so := by
    unfold NewProfile defaultGreenArgs
    split
    all_goals first
      | rfl
      | simp_all [recognizedProfiles]
  have hg : NewProfile "default-green" fo so = defaultGreenArgs fo so := rfl
  exact ⟨hd.trans hg.symm, hd⟩

theorem newProfile_unknown_is_default_green_witness :
    NewProfile "TESTPROFILE" none 0 =
      NewProfile "default-green" none 0 ∧
    NewProfile "TESTPROFILE" none 0 = defaultGreenArgs none 0 :=
  newProfile_unknown_is_default_green "TESTPROFILE" none 0 (by decide)

end Virtual1403
